import Mathlib

/-!
Verification of the AI-Paper-Analyzer scripts (text_extractor.py,
topic_analyzer.py, openai_analyzer.py, style_transfer.py) against their
natural-language specification.

The scripts are shallowly embedded: the file system is a map from path
strings to file contents, the process environment (importable libraries,
environment variables, library/LLM pipelines) is a record of oracles, and
each script's control flow is translated function by function from the
Python source.  Library-internal pipelines (sklearn/NLTK/OpenCV/PIL/OpenAI
calls with fixed parameters) are abstracted as oracle fields or opaque
image-transformation constructors, since no claim depends on their numeric
output; all repository-level control flow (dispatch, fallbacks, error
returns, output construction) is embedded faithfully.  Python floats that
only ever appear as data (relevance scores) are modelled as rationals.
-/

namespace PaperAnalyzer

/-! ## String utilities mirroring the Python primitives used by the code -/

/-- Python `str.strip()` on a character list: drop whitespace from both ends. -/
def pyStripL (l : List Char) : List Char :=
  ((l.dropWhile Char.isWhitespace).reverse.dropWhile Char.isWhitespace).reverse

/-- Python `str.strip()`. -/
def pyStrip (s : String) : String :=
  ⟨pyStripL s.data⟩

/-- Python `str.lower()` (ASCII case folding suffices for the code's uses). -/
def strLower (s : String) : String :=
  ⟨s.data.map Char.toLower⟩

/-- Boolean prefix test on character lists (Python `str.startswith`). -/
def isPrefixL : List Char → List Char → Bool
  | [], _ => true
  | _ :: _, [] => false
  | p :: ps, c :: cs => p == c && isPrefixL ps cs

/-- Python `str.startswith(pre)`. -/
def startsW (pre s : String) : Bool :=
  isPrefixL pre.data s.data

/-- Python `pat in s` substring test on character lists. -/
def hasSubstrL (pat : List Char) : List Char → Bool
  | [] => pat.isEmpty
  | c :: cs => isPrefixL pat (c :: cs) || hasSubstrL pat cs

/-- Python `pat in s` substring test on strings. -/
def hasSubstr (pat s : String) : Bool :=
  hasSubstrL pat.data s.data

/-- Collapse every maximal run of whitespace into a single space; this is
`re.sub(r'\s+', ' ', text)` from `clean_text`.  The flag records whether the
previous character was part of a whitespace run already emitted as `' '`. -/
def collapseWsAux : Bool → List Char → List Char
  | _, [] => []
  | prevWs, c :: cs =>
    if c.isWhitespace then
      if prevWs then collapseWsAux true cs
      else ' ' :: collapseWsAux true cs
    else c :: collapseWsAux false cs

/-- `re.sub(r'\s+', ' ', text)`. -/
def collapseWs (l : List Char) : List Char :=
  collapseWsAux false l

/-- Python `s.split('\n')`: always returns at least one (possibly empty) piece. -/
def splitOnNl : List Char → List (List Char)
  | [] => [[]]
  | c :: cs =>
    let r := splitOnNl cs
    if c = '\n' then [] :: r
    else
      match r with
      | h :: t => (c :: h) :: t
      | [] => [[c]]

/-- Python `str.split()` (split on whitespace runs, dropping empty pieces);
the accumulator holds the current word reversed. -/
def splitWsAux (cur : List Char) : List Char → List (List Char)
  | [] => if cur.isEmpty then [] else [cur.reverse]
  | c :: cs =>
    if c.isWhitespace then
      if cur.isEmpty then splitWsAux [] cs else cur.reverse :: splitWsAux [] cs
    else splitWsAux (c :: cur) cs

/-- Python `str.split()` on a string, returning strings. -/
def pySplitWs (s : String) : List String :=
  (splitWsAux [] s.data).map fun l => ⟨l⟩

/-- Python `output_path.replace('.txt', '_metadata.json')` from
`process_document` (line 173): replaces every non-overlapping occurrence of
`.txt`, scanning left to right. -/
def replaceTxtMeta : List Char → List Char
  | '.' :: 't' :: 'x' :: 't' :: rest => "_metadata.json".data ++ replaceTxtMeta rest
  | c :: rest => c :: replaceTxtMeta rest
  | [] => []

/-- Whether `.txt` occurs as a substring (the condition under which the
`replace` in `process_document` changes the path). -/
def hasTxtSubstr : List Char → Bool
  | '.' :: 't' :: 'x' :: 't' :: _ => true
  | _ :: rest => hasTxtSubstr rest
  | [] => false

/-- The metadata sidecar path computed by `process_document`. -/
def metadataPath (output : String) : String :=
  ⟨replaceTxtMeta output.data⟩

/-- Index of the last occurrence of a character (Python `str.rfind`). -/
def lastIdx (c : Char) : List Char → Option Nat
  | [] => none
  | x :: xs =>
    match lastIdx c xs with
    | some i => some (i + 1)
    | none => if x = c then some 0 else none

/-- Final path component (text after the last `/`). -/
def pathBasename (l : List Char) : List Char :=
  ((l.reverse.takeWhile fun c => c ≠ '/').reverse)

/-- `pathlib.Path(p).suffix`: the extension of the final component, from its
last dot, empty when the dot is leading or trailing or absent. -/
def pathSuffix (p : String) : String :=
  let n := pathBasename p.data
  match lastIdx '.' n with
  | some i => if 0 < i ∧ i + 1 < n.length then ⟨n.drop i⟩ else ""
  | none => ""

/-! ## JSON values and the file system -/

/-- JSON values as produced by `json.dump` on the dictionaries the scripts
build.  Numeric fields (relevance scores) are modelled as rationals. -/
inductive Json where
  | str (s : String)
  | num (q : ℚ)
  | bool (b : Bool)
  | null
  | arr (items : List Json)
  | obj (fields : List (String × Json))

/-- Top-level keys of a JSON object (empty for non-objects). -/
def Json.keys : Json → List String
  | .obj fields => fields.map Prod.fst
  | _ => []

/-- Abstract processed image: PIL/OpenCV pixel pipelines are modelled as
constructors recording which repository-level transformation produced the
image, since no claim inspects pixel values. -/
inductive PImage where
  | file (id : Nat) (mode : String) (w h : Nat)
  | converted (i : PImage)
  | resized (i : PImage) (w h : Nat)
  | styled (styleName : String) (i : PImage)

/-- `image.mode` for the model: `convert('RGB')` and the style pipelines
yield RGB images. -/
def PImage.mode : PImage → String
  | .file _ m _ _ => m
  | .converted _ => "RGB"
  | .resized i _ _ => i.mode
  | .styled _ _ => "RGB"

/-- Width of the modelled image. -/
def PImage.width : PImage → Nat
  | .file _ _ w _ => w
  | .converted i => i.width
  | .resized _ w _ => w
  | .styled _ i => i.width

/-- Height of the modelled image. -/
def PImage.height : PImage → Nat
  | .file _ _ _ h => h
  | .converted i => i.height
  | .resized _ _ h => h
  | .styled _ i => i.height

/-- Contents of a file.  `text` is a UTF-8 decodable text file; `json` is a
serialized JSON value; `pdf`/`docx` hold the page/paragraph texts the parser
library would return; `image` is an openable image; `jpeg` is a JPEG written
by `PIL.Image.save(..., 'JPEG')`; `binary` is anything unreadable by the
operation attempted on it. -/
inductive FileData where
  | text (s : String)
  | json (j : Json)
  | pdf (pages : List String)
  | docx (paras : List String)
  | image (img : PImage)
  | jpeg (img : PImage)
  | binary

/-- The file system: a map from paths to contents. -/
def FS : Type := String → Option FileData

/-- Writing a file (mode `'w'`/`save`: truncates, i.e. clobbers any previous
content at that path). -/
def fsWrite (fs : FS) (p : String) (d : FileData) : FS :=
  fun q => if q = p then some d else fs q

/-! ## Process environment -/

/-- A topic record as built by `extract_topics_lda` / `extract_topics_tfidf`
(dict with `topic`, `relevanceScore`, `keywords`). -/
structure Topic where
  topic : String
  relevanceScore : ℚ
  keywords : List String

/-- A predefined topic from the external topics JSON file (`name`,
optional `description`, optional `_id`). -/
structure PredefTopic where
  name : String
  description : Option String
  idOpt : Option String

/-- A topic suggestion as built by `suggest_topics`. -/
structure Suggestion where
  topicId : String
  topicName : String
  suggestionScore : ℚ

/-- One suggested research area from the OpenAI result. -/
structure SuggestedArea where
  area : String
  reasoning : String

/-- The dictionary shape `analyze_paper_openai` reads out of the OpenAI
analysis with `.get` and defaults; absent keys are `none`.  A falsy result
(`None`, empty dict, non-dict falsy JSON) is modelled as the oracle
returning `none`, since the code treats all of those identically
(`if not openai_result`). -/
structure OAResult where
  summaryOpt : Option String
  extractedTopicsOpt : Option (List Topic)
  suggestedAreasOpt : Option (List SuggestedArea)

/-- The process environment: which libraries import successfully, whether a
`pip3 install` attempt makes them importable, environment variables, and
oracles for the library-internal pipelines (sklearn/NLTK topic extraction
and summarization, `os.path.getctime`, the OpenAI chat endpoint).  The
oracles are total because the corresponding source functions catch all of
their own exceptions and always return a value. -/
structure Env where
  pypdf2 : Bool
  pipFixesPdf : Bool
  pythonDocx : Bool
  pipFixesDocx : Bool
  analysisLibsOk : Bool
  pipFixesAnalysisLibs : Bool
  ldaTopics : String → List Topic
  tfidfTopics : String → List Topic
  summarize : String → String
  ctime : String → String
  apiKey : Option String
  clientCtorOk : Bool
  openaiAnalyze : String → Option OAResult
  openaiSuggest : List Topic → List PredefTopic → List Suggestion

/-! ## text_extractor.py -/

/-- Result of one of the fuel-indexed extraction functions: `ret` is a
normal Python return (`Some text` or `None`), `outOfFuel` means the
recursion had not returned within the given number of recursive calls. -/
inductive ExOut where
  | ret (r : Option String)
  | outOfFuel

/-- The text PyPDF2 would produce: page texts concatenated with a newline
after each (`text += page.extract_text() + "\n"`), then `strip()`. -/
def pdfRead (fs : FS) (path : String) : Option String :=
  match fs path with
  | some (.pdf pages) => some (pyStrip (pages.foldl (fun acc p => acc ++ p ++ "\n") ""))
  | _ => none

/-- The text python-docx would produce: paragraph texts concatenated with
newlines, then `strip()`. -/
def docxRead (fs : FS) (path : String) : Option String :=
  match fs path with
  | some (.docx paras) => some (pyStrip (paras.foldl (fun acc p => acc ++ p ++ "\n") ""))
  | _ => none

/-- Effect of `os.system("pip3 install PyPDF2")` on the environment. -/
def envAfterPipPdf (env : Env) : Env :=
  { env with pypdf2 := env.pypdf2 || env.pipFixesPdf }

/-- Effect of `os.system("pip3 install python-docx")` on the environment. -/
def envAfterPipDocx (env : Env) : Env :=
  { env with pythonDocx := env.pythonDocx || env.pipFixesDocx }

/-- `extract_from_pdf`: import PyPDF2; on `ImportError`, run a pip install
and retry by calling itself recursively (source lines 26-29); any other
failure returns `None`.  The recursion is fuel-indexed so that the
unbounded retry loop is observable. -/
def extract_from_pdf (env : Env) (fs : FS) (path : String) : Nat → ExOut
  | 0 => .outOfFuel
  | fuel + 1 =>
    if env.pypdf2 then .ret (pdfRead fs path)
    else extract_from_pdf (envAfterPipPdf env) fs path fuel

/-- `extract_from_docx`: same retry-by-recursion shape as
`extract_from_pdf` (source lines 46-49). -/
def extract_from_docx (env : Env) (fs : FS) (path : String) : Nat → ExOut
  | 0 => .outOfFuel
  | fuel + 1 =>
    if env.pythonDocx then .ret (docxRead fs path)
    else extract_from_docx (envAfterPipDocx env) fs path fuel

/-- `extract_from_txt`: read the file as text and `strip()` it; any failure
(missing file, content undecodable under both attempted encodings) prints
and returns `None`. -/
def extract_from_txt (fs : FS) (path : String) : Option String :=
  match fs path with
  | some (.text s) => some (pyStrip s)
  | _ => none

/-- `clean_text`: empty/`None` input yields `""`; otherwise collapse all
whitespace runs to single spaces and `strip()`.  The three newline-anchored
substitutions of the source (page numbers, `Page N` headers, triple
newlines) are identities here because the first substitution already
replaced every newline by a space, so no later pattern can match. -/
def clean_text (s : String) : String :=
  if s = "" then "" else pyStrip ⟨collapseWs s.data⟩

/-- The metadata dictionary built by `extract_metadata`. -/
structure Metadata where
  title : String
  authors : List String
  abstract : String

/-- Title scan of `extract_metadata`: first of the first ten lines whose
stripped form is longer than ten characters and does not start (lowercased)
with `abstract` or `introduction`. -/
def findTitleAux : List String → String
  | [] => ""
  | l :: ls =>
    let t := pyStrip l
    if t.length > 10 &&
        !(startsW "abstract" (strLower t)) && !(startsW "introduction" (strLower t)) then
      t
    else findTitleAux ls

/-- `extract_metadata`'s title: scan only `lines[:10]`. -/
def findTitle (lines : List String) : String :=
  findTitleAux (lines.take 10)

/-- Whether a lowered, stripped line starts one of the abstract-terminating
sections (`introduction`, `1.`, `keywords`, `key words`). -/
def isAbstractTerminator (ll : String) : Bool :=
  startsW "introduction" ll || startsW "1." ll || startsW "keywords" ll || startsW "key words" ll

/-- The abstract-bounds scan of `extract_metadata`: each line starting with
`abstract` (lowered, stripped) updates the start index; the first
terminator line seen after some start index ends the scan. -/
def absBounds : List String → Nat → Option Nat → Option Nat × Option Nat
  | [], _, start => (start, none)
  | l :: ls, i, start =>
    let ll := pyStrip (strLower l)
    if startsW "abstract" ll then absBounds ls (i + 1) (some i)
    else if start.isSome && isAbstractTerminator ll then (start, some i)
    else absBounds ls (i + 1) start

/-- `re.sub(r'^abstract\s*:?\s*', '', text, flags=re.IGNORECASE)`: strip a
leading case-insensitive `abstract`, following whitespace, an optional
colon, and whitespace after it. -/
def removeAbstractPrefix (s : String) : String :=
  if isPrefixL "abstract".data (s.data.map Char.toLower) then
    let rest := (s.data.drop 8).dropWhile Char.isWhitespace
    match rest with
    | ':' :: r => ⟨r.dropWhile Char.isWhitespace⟩
    | _ => ⟨rest⟩
  else s

/-- The abstract text of `extract_metadata`: join `lines[start:end]` with
spaces, `strip()`, and remove the `abstract` prefix; empty when no line
starts with `abstract`. -/
def findAbstract (lines : List String) : String :=
  match absBounds lines 0 none with
  | (none, _) => ""
  | (some s, e?) =>
    let e := match e? with
      | some e => e
      | none => min (s + 20) lines.length
    let abstractLines := (lines.drop s).take (e - s)
    removeAbstractPrefix (pyStrip (String.intercalate " " abstractLines))

/-- `extract_metadata`: builds the metadata dictionary.  No statement in the
source ever assigns to `metadata['authors']`, so the field stays `[]`. -/
def extract_metadata (text : String) : Metadata :=
  let lines := (splitOnNl text.data).map fun l => (⟨l⟩ : String)
  { title := findTitle lines
    authors := []
    abstract := findAbstract lines }

/-- Serialization of the metadata dictionary by `json.dump`:
exactly the keys `title`, `authors`, `abstract`. -/
def metadataToJson (m : Metadata) : Json :=
  .obj [("title", .str m.title), ("authors", .arr (m.authors.map Json.str)),
        ("abstract", .str m.abstract)]

/-- Result of `process_document`: a boolean return together with the file
system after any writes, or non-return of the unbounded import-retry
recursion. -/
inductive PDOut where
  | ret (ok : Bool) (fs : FS)
  | outOfFuel

/-- The tail of `process_document` from the point where extraction produced
its `Option` result: `None` → failure; otherwise clean, check non-empty,
write the text file, then write the metadata JSON to
`output_path.replace('.txt', '_metadata.json')` and return `True`. -/
def processExtracted (fs : FS) (output : String) : Option String → PDOut
  | none => .ret false fs
  | some text =>
    if clean_text text = "" then .ret false fs
    else
      .ret true (fsWrite (fsWrite fs output (.text (clean_text text))) (metadataPath output)
        (.json (metadataToJson (extract_metadata (clean_text text)))))

/-- Lift an `ExOut` into the continuation of `process_document`. -/
def processExOut (fs : FS) (output : String) : ExOut → PDOut
  | .outOfFuel => .outOfFuel
  | .ret r => processExtracted fs output r

/-- `process_document`: validate existence, dispatch on the lowered
`pathlib` suffix (`.pdf`, `.docx`, `.txt`/`.text`, otherwise unsupported),
then extract, clean, and write the text and metadata artifacts. -/
def process_document (env : Env) (fs : FS) (input output : String) (fuel : Nat) : PDOut :=
  match fs input with
  | none => .ret false fs
  | some _ =>
    if strLower (pathSuffix input) = ".pdf" then
      processExOut fs output (extract_from_pdf env fs input fuel)
    else if strLower (pathSuffix input) = ".docx" then
      processExOut fs output (extract_from_docx env fs input fuel)
    else if strLower (pathSuffix input) = ".txt" || strLower (pathSuffix input) = ".text" then
      processExtracted fs output (extract_from_txt fs input)
    else .ret false fs

/-- Outcome of a script's `__main__` block: a usage message with exit code 1
when the argument count check fails, a normal `sys.exit` with the final
file system otherwise, or `hang` when the import-retry recursion never
returns. -/
inductive MainOut where
  | usage
  | exit (code : Nat) (fs : FS)
  | hang

/-- `text_extractor.py.__main__`: exactly two positional arguments, then
`sys.exit(0 if success else 1)`. -/
def text_extractor_main (env : Env) (fs : FS) (argv : List String) (fuel : Nat) : MainOut :=
  match argv with
  | [_, input, output] =>
    match process_document env fs input output fuel with
    | .ret ok fs' => .exit (if ok then 0 else 1) fs'
    | .outOfFuel => .hang
  | _ => .usage

/-! ## topic_analyzer.py -/

/-- `install_dependencies`: the imports succeed outright, or one pip
install attempt is made and the imports are retried once; `false` means the
retried import raised and the exception propagates to the caller. -/
def install_dependencies_ok (env : Env) : Bool :=
  env.analysisLibsOk || env.pipFixesAnalysisLibs

/-- Per-keyword similarity contribution in `suggest_topics`: `0.8` when the
keyword occurs in the topic name, else `0.5` when it occurs in the
description, plus `0.3` for every word of the topic name that overlaps the
keyword in either direction. -/
def keywordScore (kw tn td : String) : ℚ :=
  let base : ℚ := if hasSubstr kw tn then 8/10 else if hasSubstr kw td then 5/10 else 0
  let partialMatches := (pySplitWs tn).filter fun w => hasSubstr w kw || hasSubstr kw w
  base + partialMatches.length * (3/10)

/-- Similarity score of one extracted topic's keywords against one
predefined topic (name and description lowered once, keywords lowered in
the loop). -/
def similarityScore (keywords : List String) (pt : PredefTopic) : ℚ :=
  let tn := strLower pt.name
  let td := strLower (pt.description.getD "")
  (keywords.map fun kw => keywordScore (strLower kw) tn td).sum

/-- The suggestions one extracted topic contributes: every predefined topic
scoring above `0.3`, with the score capped at `1.0` and the id defaulting
to the name. -/
def suggestionsFor (keywords : List String) (pts : List PredefTopic) : List Suggestion :=
  pts.filterMap fun pt =>
    let s := similarityScore keywords pt
    if s > 3/10 then
      some { topicId := pt.idOpt.getD pt.name, topicName := pt.name,
             suggestionScore := min s 1 }
    else none

/-- First-occurrence deduplication by `topicId` (the `seen_topics` set). -/
def dedupById (seen : List String) : List Suggestion → List Suggestion
  | [] => []
  | s :: rest =>
    if seen.contains s.topicId then dedupById seen rest
    else s :: dedupById (s.topicId :: seen) rest

/-- Stable insertion keeping scores descending; an element is placed before
the first existing element whose score it reaches, so that on equal scores
the earlier-listed element stays first, as with Python's stable
`sort(..., reverse=True)`. -/
def insertDescByScore (s : Suggestion) : List Suggestion → List Suggestion
  | [] => [s]
  | x :: xs =>
    if x.suggestionScore ≤ s.suggestionScore then s :: x :: xs
    else x :: insertDescByScore s xs

/-- Stable descending sort by `suggestionScore`. -/
def sortDescByScore : List Suggestion → List Suggestion
  | [] => []
  | x :: xs => insertDescByScore x (sortDescByScore xs)

/-- `suggest_topics`: keyword-match every extracted topic against every
predefined topic, keep scores above `0.3`, deduplicate by topic id, sort by
descending score, and return the top five. -/
def suggest_topics (ets : List Topic) (pts : List PredefTopic) : List Suggestion :=
  let all := (ets.map fun et => suggestionsFor et.keywords pts).flatten
  (sortDescByScore (dedupById [] all)).take 5

/-- Decode one entry of the predefined-topics JSON: `name` is required,
`description` and `_id` are read with `.get` defaults. -/
def decodeTopicEntry : Json → Option PredefTopic
  | .obj fields =>
    let lookup := fun k => ((fields.find? fun kv => kv.1 == k).map Prod.snd)
    match lookup "name" with
    | some (.str n) =>
      some { name := n
             description := match lookup "description" with
               | some (.str d) => some d
               | _ => none
             idOpt := match lookup "_id" with
               | some (.str i) => some i
               | _ => none }
    | _ => none
  | _ => none

/-- Decode the predefined-topics file as a list of topic entries. -/
def decodePredef : Json → Option (List PredefTopic)
  | .arr items => items.mapM decodeTopicEntry
  | _ => none

/-- Loading of the predefined topics in both analyzers: missing argument,
missing file, unreadable/unparsable JSON, or entries of the wrong shape all
leave the effective list empty (in the source the last case surfaces as an
exception inside `suggest_topics`, which returns `[]`). -/
def loadPredef (fs : FS) : Option String → List PredefTopic
  | none => []
  | some p =>
    match fs p with
    | some (.json j) => (decodePredef j).getD []
    | _ => []

/-- Serialization of one extracted-topic dictionary. -/
def topicToJson (t : Topic) : Json :=
  .obj [("topic", .str t.topic), ("relevanceScore", .num t.relevanceScore),
        ("keywords", .arr (t.keywords.map Json.str))]

/-- Serialization of one suggestion dictionary. -/
def suggestionToJson (s : Suggestion) : Json :=
  .obj [("topicId", .str s.topicId), ("topicName", .str s.topicName),
        ("suggestionScore", .num s.suggestionScore)]

/-- The `analysis_result` dictionary `analyze_paper` writes: LDA topics,
with one TF-IDF retry when the list came back empty; the extractive
summary; suggestions against the predefined topics; and the `getctime`
string of the text file. -/
def localAnalysisJson (env : Env) (text tpath : String) (predef : List PredefTopic) : Json :=
  let et0 := env.ldaTopics text
  let et := if et0.isEmpty then env.tfidfTopics text else et0
  let suggested := suggest_topics et predef
  .obj [("summary", .str (env.summarize text)),
        ("extractedTopics", .arr (et.map topicToJson)),
        ("suggestedTopics", .arr (suggested.map suggestionToJson)),
        ("analysisDate", .str (env.ctime tpath))]

/-- `analyze_paper`: install dependencies (a failed retry raises and is
caught, returning `False`), read the text file (read failures are caught,
returning `False`), reject empty text, then build and write the analysis
JSON and return `True`. -/
def analyze_paper (env : Env) (fs : FS) (tpath opath : String)
    (predefPath : Option String) : Bool × FS :=
  if install_dependencies_ok env then
    match fs tpath with
    | some (.text text) =>
      if pyStrip text = "" then (false, fs)
      else (true, fsWrite fs opath (.json (localAnalysisJson env text tpath (loadPredef fs predefPath))))
    | _ => (false, fs)
  else (false, fs)

/-- `topic_analyzer.py.__main__`: at least two positional arguments, the
third being the optional predefined-topics path, then
`sys.exit(0 if success else 1)`. -/
def topic_analyzer_main (env : Env) (fs : FS) (argv : List String) : MainOut :=
  match argv with
  | _ :: tpath :: opath :: rest =>
    let r := analyze_paper env fs tpath opath rest.head?
    .exit (if r.1 then 0 else 1) r.2
  | _ => .usage

/-! ## openai_analyzer.py -/

/-- `setup_openai`: `None` when `OPENAI_API_KEY` is unset or empty (falsy),
or when constructing the client raises; otherwise a client. -/
def setup_openai (env : Env) : Option Unit :=
  match env.apiKey with
  | none => none
  | some k => if k = "" then none else if env.clientCtorOk then some () else none

/-- The truncation `analyze_with_openai` applies before calling the API:
texts longer than 12000 characters are cut and suffixed with `...`. -/
def truncateForOpenai (s : String) : String :=
  if s.length > 12000 then ⟨s.data.take 12000⟩ ++ "..." else s

/-- `analyze_with_openai`: one chat-completion call on the truncated text.
The call, the JSON parse, and the line-oriented fallback parse
(`extract_from_text_response`) are library/LLM-driven and abstracted as the
environment's oracle; the source catches every exception and returns
`None`, and treats falsy parses like `None` downstream, so the oracle's
`none` covers exactly the cases in which `analyze_paper_openai` falls back. -/
def analyze_with_openai (env : Env) (text : String) : Option OAResult :=
  env.openaiAnalyze (truncateForOpenai text)

/-- Serialization of one suggested research area. -/
def areaToJson (a : SuggestedArea) : Json :=
  .obj [("area", .str a.area), ("reasoning", .str a.reasoning)]

/-- The `analysis_result` dictionary `analyze_paper_openai` writes on its
own success path: the OpenAI fields read with `.get` defaults, plus the
suggestions (computed only when both the predefined list and the extracted
topics are non-empty), the `getctime` string, and the `analyzedWith`
marker.  The name matching inside `suggest_topics_openai` is a second
chat-completion call abstracted as the `openaiSuggest` oracle. -/
def openaiAnalysisJson (env : Env) (res : OAResult) (tpath : String)
    (predef : List PredefTopic) : Json :=
  let etop := res.extractedTopicsOpt.getD []
  let suggested := if !predef.isEmpty && !etop.isEmpty then env.openaiSuggest etop predef else []
  .obj [("summary", .str (res.summaryOpt.getD "")),
        ("extractedTopics", .arr (etop.map topicToJson)),
        ("suggestedTopics", .arr (suggested.map suggestionToJson)),
        ("suggestedAreas", .arr ((res.suggestedAreasOpt.getD []).map areaToJson)),
        ("analysisDate", .str (env.ctime tpath)),
        ("analyzedWith", .str "OpenAI")]

/-- `analyze_paper_openai`: fall back to the local `analyze_paper` when the
client cannot be set up, when the OpenAI analysis yields no result, or when
any exception escapes the body (e.g. an unreadable text file); return
`False` without fallback only for empty text; otherwise write the OpenAI
analysis JSON and return `True`.  The fallback import of `topic_analyzer`
is modelled as always succeeding, since the module is part of the
repository. -/
def analyze_paper_openai (env : Env) (fs : FS) (tpath opath : String)
    (predefPath : Option String) : Bool × FS :=
  match setup_openai env with
  | none => analyze_paper env fs tpath opath predefPath
  | some _ =>
    match fs tpath with
    | some (.text text) =>
      if pyStrip text = "" then (false, fs)
      else
        match analyze_with_openai env text with
        | none => analyze_paper env fs tpath opath predefPath
        | some res =>
          (true, fsWrite fs opath (.json (openaiAnalysisJson env res tpath (loadPredef fs predefPath))))
    | _ => analyze_paper env fs tpath opath predefPath

/-- `openai_analyzer.py.__main__`: same CLI shape as `topic_analyzer`. -/
def openai_analyzer_main (env : Env) (fs : FS) (argv : List String) : MainOut :=
  match argv with
  | _ :: tpath :: opath :: rest =>
    let r := analyze_paper_openai env fs tpath opath rest.head?
    .exit (if r.1 then 0 else 1) r.2
  | _ => .usage

/-! ## style_transfer.py -/

/-- `apply_vangogh_style`: a fixed OpenCV/PIL pipeline (edge-preserving
filter, bilateral filters, morphological close, saturation boost,
brushstroke sharpening, color/contrast enhancement); the pixel mathematics
is library-internal and modelled as an opaque transformation tagged with
the style name. -/
def apply_vangogh_style (i : PImage) : PImage := .styled "vangogh" i

/-- `apply_picasso_style`: fixed segment-fragmentation pipeline, abstracted
as an opaque transformation. -/
def apply_picasso_style (i : PImage) : PImage := .styled "picasso" i

/-- `apply_monet_style`: fixed Gaussian-blend pipeline, abstracted as an
opaque transformation. -/
def apply_monet_style (i : PImage) : PImage := .styled "monet" i

/-- `apply_abstract_style`: fixed stylization/k-means/noise pipeline,
abstracted as an opaque transformation. -/
def apply_abstract_style (i : PImage) : PImage := .styled "abstract" i

/-- `apply_dali_style`: fixed remap/hue-shift/edge pipeline, abstracted as
an opaque transformation. -/
def apply_dali_style (i : PImage) : PImage := .styled "dali" i

/-- `apply_warhol_style`: fixed posterize/four-panel pipeline, abstracted
as an opaque transformation. -/
def apply_warhol_style (i : PImage) : PImage := .styled "warhol" i

/-- `apply_kandinsky_style`: fixed random-shapes/saturation pipeline,
abstracted as an opaque transformation. -/
def apply_kandinsky_style (i : PImage) : PImage := .styled "kandinsky" i

/-- The `style_functions` dictionary lookup of `process_image`. -/
def style_functions (s : String) : Option (PImage → PImage) :=
  if s = "vangogh" then some apply_vangogh_style
  else if s = "picasso" then some apply_picasso_style
  else if s = "monet" then some apply_monet_style
  else if s = "abstract" then some apply_abstract_style
  else if s = "dali" then some apply_dali_style
  else if s = "warhol" then some apply_warhol_style
  else if s = "kandinsky" then some apply_kandinsky_style
  else none

/-- Outcome of `process_image`: normal completion (the function returns
`None`), or `sys.exit` with a code from inside the function. -/
inductive StOut where
  | finished (fs : FS)
  | exited (code : Nat) (fs : FS)

/-- The downscale applied when the larger image dimension exceeds 1024:
`int(dim * ratio)` with `ratio = 1024 / max(size)`, modelled with
truncating natural division. -/
def resizeScaled (i : PImage) : PImage :=
  let m := max i.width i.height
  .resized i (i.width * 1024 / m) (i.height * 1024 / m)

/-- The `convert('RGB')` step of `process_image`, applied only to non-RGB
images. -/
def convertIfNeeded (i : PImage) : PImage :=
  if i.mode ≠ "RGB" then .converted i else i

/-- The conditional downscale step of `process_image`. -/
def resizeIfBig (i : PImage) : PImage :=
  if max i.width i.height > 1024 then resizeScaled i else i

/-- The style dispatch of `process_image`: the selected style function, or
the Van Gogh filter when the lowered style name is not a key of the
dictionary. -/
def styledResult (style : String) (i : PImage) : PImage :=
  match style_functions (strLower style) with
  | some f => f i
  | none => apply_vangogh_style i

/-- `process_image`: open the image (any failure, including a missing or
non-image file, is caught and converted to `sys.exit(1)`), convert to RGB
when needed, downscale when larger than 1024, apply the selected style
function, and save the result as a JPEG. -/
def process_image (fs : FS) (input output style : String) : StOut :=
  match fs input with
  | some (.image img0) =>
    .finished (fsWrite fs output (.jpeg (styledResult style (resizeIfBig (convertIfNeeded img0)))))
  | _ => .exited 1 fs

/-- `style_transfer.py.__main__`: exactly three positional arguments
(`input`, `output`, `style` — the style is not optional), an existence
check on the input path exiting 1, then `process_image`; a normal return
from `process_image` ends the process with exit code 0. -/
def style_transfer_main (fs : FS) (argv : List String) : MainOut :=
  match argv with
  | [_, input, output, style] =>
    if (fs input).isNone then .exit 1 fs
    else
      match process_image fs input output style with
      | .finished fs' => .exit 0 fs'
      | .exited c fs' => .exit c fs'
  | _ => .usage

/-! ## Helper lemmas -/

/-- Writing then reading the same path yields the written value. -/
theorem fsWrite_same (fs : FS) (p : String) (d : FileData) :
    fsWrite fs p d p = some d := by
  simp [fsWrite]

/-- If `.txt` does not occur in `c :: cs`, it does not occur in `cs`. -/
theorem hasTxtSubstr_cons (c : Char) (cs : List Char)
    (h : hasTxtSubstr (c :: cs) = false) : hasTxtSubstr cs = false := by
  rw [hasTxtSubstr.eq_def] at h
  split at h
  · simp at h
  · rename_i heq
    injection heq with h1 h2
    rw [h2]
    exact h
  · rename_i heq
    simp at heq

/-- Python's `replace('.txt', '_metadata.json')` is the identity on strings
not containing `.txt`. -/
theorem replaceTxtMeta_eq_self : ∀ l : List Char, hasTxtSubstr l = false → replaceTxtMeta l = l := by
  intro l
  induction l with
  | nil => intro _; rfl
  | cons c cs ih =>
    intro h
    rw [replaceTxtMeta.eq_def]
    split
    · rename_i heq
      rw [heq] at h
      simp [hasTxtSubstr] at h
    · rename_i heq
      injection heq with h1 h2
      rw [← h1, ← h2, ih (hasTxtSubstr_cons c cs h)]
    · rename_i heq
      simp at heq

/-- A successful `process_document` run past the extraction step writes the
cleaned text to the output path and then the metadata JSON to the sidecar
path. -/
theorem processExtracted_ret_true (fs : FS) (output : String) (r : Option String) (fs' : FS)
    (h : processExtracted fs output r = .ret true fs') :
    ∃ cleaned, fs' = fsWrite (fsWrite fs output (.text cleaned)) (metadataPath output)
      (.json (metadataToJson (extract_metadata cleaned))) := by
  cases r with
  | none => simp [processExtracted] at h
  | some text =>
    simp only [processExtracted] at h
    split at h
    · simp at h
    · refine ⟨clean_text text, ?_⟩
      injection h with _ h2
      exact h2.symm

/-- The same statement through the fuel-indexed extraction wrapper. -/
theorem processExOut_ret_true (fs : FS) (output : String) (ex : ExOut) (fs' : FS)
    (h : processExOut fs output ex = .ret true fs') :
    ∃ cleaned, fs' = fsWrite (fsWrite fs output (.text cleaned)) (metadataPath output)
      (.json (metadataToJson (extract_metadata cleaned))) := by
  cases ex with
  | outOfFuel => simp [processExOut] at h
  | ret r => exact processExtracted_ret_true fs output r fs' h

/-- Shape of the final file system of every successful `process_document`
run: a text write to the output path followed by a metadata JSON write to
the sidecar path. -/
theorem process_document_ret_true (env : Env) (fs : FS) (input output : String)
    (fuel : Nat) (fs' : FS) (h : process_document env fs input output fuel = .ret true fs') :
    ∃ cleaned, fs' = fsWrite (fsWrite fs output (.text cleaned)) (metadataPath output)
      (.json (metadataToJson (extract_metadata cleaned))) := by
  unfold process_document at h
  split at h
  · simp at h
  · split at h
    · exact processExOut_ret_true _ _ _ _ h
    · split at h
      · exact processExOut_ret_true _ _ _ _ h
      · split at h
        · exact processExtracted_ret_true _ _ _ _ h
        · simp at h

/-! ## Demonstration environment and file systems used by the witnesses -/

/-- An empty file system. -/
def fsEmpty : FS := fun _ => none

/-- A fully working environment with trivial analysis oracles and no
OpenAI API key. -/
def envDemo : Env :=
  { pypdf2 := true, pipFixesPdf := true, pythonDocx := true, pipFixesDocx := true
    analysisLibsOk := true, pipFixesAnalysisLibs := true
    ldaTopics := fun _ => [], tfidfTopics := fun _ => []
    summarize := fun _ => "s", ctime := fun _ => "0"
    apiKey := none, clientCtorOk := true
    openaiAnalyze := fun _ => none, openaiSuggest := fun _ _ => [] }

/-- The demonstration input text (a single line, so its cleaned form is
itself). -/
def demoText : String := "Hello world sample document text"

/-- A file system with one readable text document. -/
def fsDemo : FS := fun p => if p = "in.txt" then some (.text demoText) else none

/-- Final file system of the demonstration `process_document` run. -/
def fsDemoOut : FS :=
  fsWrite (fsWrite fsDemo "out.txt" (.text demoText)) "out_metadata.json"
    (.json (metadataToJson (extract_metadata demoText)))

/-! ## Claims -/

/-- C10: for every input text, the metadata object produced by
`extract_metadata` has an empty author list — no code path assigns to the
`authors` field. -/
theorem C10_authors_empty (text : String) : (extract_metadata text).authors = [] := rfl

/-- C7: every successful `process_document` run writes the text file and
then the sidecar metadata JSON (each write clobbering any previous content
at its path), and the serialized metadata object has exactly the keys
`title`, `authors`, `abstract`, with `title` and `abstract` strings and
`authors` a (here always empty) list. -/
theorem C7_metadata_shape :
    (∀ env fs input output fuel fs',
      process_document env fs input output fuel = .ret true fs' →
      ∃ cleaned, fs' = fsWrite (fsWrite fs output (.text cleaned)) (metadataPath output)
        (.json (metadataToJson (extract_metadata cleaned)))) ∧
    (∀ text, ∃ t a, metadataToJson (extract_metadata text) =
      .obj [("title", .str t), ("authors", .arr []), ("abstract", .str a)]) := by
  constructor
  · intro env fs input output fuel fs' h
    exact process_document_ret_true env fs input output fuel fs' h
  · intro text
    exact ⟨(extract_metadata text).title, (extract_metadata text).abstract, rfl⟩

/-- C7 witness: the demonstration run succeeds and produces exactly the
described file system and metadata object. -/
theorem C7_metadata_shape_witness :
    (∃ cleaned, fsDemoOut = fsWrite (fsWrite fsDemo "out.txt" (.text cleaned))
      (metadataPath "out.txt") (.json (metadataToJson (extract_metadata cleaned)))) ∧
    (∃ t a, metadataToJson (extract_metadata demoText) =
      .obj [("title", .str t), ("authors", .arr []), ("abstract", .str a)]) :=
  ⟨C7_metadata_shape.1 envDemo fsDemo "in.txt" "out.txt" 1 fsDemoOut rfl,
   C7_metadata_shape.2 demoText⟩

/-- C8: when the output path does not contain `.txt`, the metadata path
computed by `process_document` equals the output path itself, so on success
the metadata JSON is the final content of the output file (the just-written
text is overwritten) while the run still reports success. -/
theorem C8_metadata_clobbers_text (output : String)
    (hno : hasTxtSubstr output.data = false) :
    metadataPath output = output ∧
    ∀ env fs input fuel fs',
      process_document env fs input output fuel = .ret true fs' →
      ∃ cleaned, fs' output = some (.json (metadataToJson (extract_metadata cleaned))) := by
  have hmp : metadataPath output = output := by
    unfold metadataPath
    rw [replaceTxtMeta_eq_self output.data hno]
  refine ⟨hmp, ?_⟩
  intro env fs input fuel fs' h
  obtain ⟨cleaned, hfs⟩ := process_document_ret_true env fs input output fuel fs' h
  refine ⟨cleaned, ?_⟩
  rw [hfs, hmp]
  exact fsWrite_same _ _ _

/-- C8 witness: with output path `out.json` the demonstration run reports
success and leaves the metadata JSON, not the extracted text, at
`out.json`. -/
theorem C8_metadata_clobbers_text_witness :
    hasTxtSubstr "out.json".data = false ∧
    metadataPath "out.json" = "out.json" ∧
    ∃ cleaned, (fsWrite (fsWrite fsDemo "out.json" (.text demoText)) (metadataPath "out.json")
        (.json (metadataToJson (extract_metadata demoText)))) "out.json" =
      some (.json (metadataToJson (extract_metadata cleaned))) :=
  ⟨by decide,
   (C8_metadata_clobbers_text "out.json" (by decide)).1,
   (C8_metadata_clobbers_text "out.json" (by decide)).2 envDemo fsDemo "in.txt" 1 _ rfl⟩

/-! ## C4: termination of the import-retry extraction functions -/

/-- `extract_from_pdf` never returns, at any recursion depth. -/
def pdfExtractionDiverges (env : Env) (fs : FS) (p : String) : Prop :=
  ∀ fuel, extract_from_pdf env fs p fuel = .outOfFuel

/-- `extract_from_docx` never returns, at any recursion depth. -/
def docxExtractionDiverges (env : Env) (fs : FS) (p : String) : Prop :=
  ∀ fuel, extract_from_docx env fs p fuel = .outOfFuel

/-- When PyPDF2 is not importable and the pip install attempt does not make
it importable, every recursive retry is again in that state, so no
recursion depth suffices for `extract_from_pdf` to return. -/
theorem extract_from_pdf_diverges (env : Env) (fs : FS) (p : String)
    (h1 : env.pypdf2 = false) (h2 : env.pipFixesPdf = false) :
    pdfExtractionDiverges env fs p := by
  intro fuel
  induction fuel generalizing env with
  | zero => rfl
  | succ n ih =>
    rw [extract_from_pdf, if_neg (by simp [h1])]
    exact ih (envAfterPipPdf env) (by simp [envAfterPipPdf, h1, h2]) (by simp [envAfterPipPdf, h2])

/-- The same divergence for `extract_from_docx`. -/
theorem extract_from_docx_diverges (env : Env) (fs : FS) (p : String)
    (h1 : env.pythonDocx = false) (h2 : env.pipFixesDocx = false) :
    docxExtractionDiverges env fs p := by
  intro fuel
  induction fuel generalizing env with
  | zero => rfl
  | succ n ih =>
    rw [extract_from_docx, if_neg (by simp [h1])]
    exact ih (envAfterPipDocx env) (by simp [envAfterPipDocx, h1, h2]) (by simp [envAfterPipDocx, h2])

/-- An environment in which neither parser library is importable and pip
install attempts change nothing. -/
def envNoLibs : Env :=
  { envDemo with pypdf2 := false, pipFixesPdf := false,
                 pythonDocx := false, pipFixesDocx := false }

/-- C4 counterexample: in an environment where the install attempt does not
make the library importable, `extract_from_pdf` and `extract_from_docx` do
not terminate — at every recursion depth they are still retrying, so they
never reach a return (in CPython the retry recursion is only stopped by the
interpreter's recursion limit, as an exception, not an error return). -/
theorem C4_counterexample :
    pdfExtractionDiverges envNoLibs fsEmpty "paper.pdf" ∧
    docxExtractionDiverges envNoLibs fsEmpty "paper.docx" :=
  ⟨extract_from_pdf_diverges envNoLibs fsEmpty "paper.pdf" rfl rfl,
   extract_from_docx_diverges envNoLibs fsEmpty "paper.docx" rfl rfl⟩

/-- C4 (amended): when the library is importable, or the pip install
attempt makes it importable, `extract_from_pdf` and `extract_from_docx`
terminate — two recursion steps always suffice to reach a return; without
that assumption the functions need not terminate. -/
theorem C4_extract_termination (env : Env) (fs : FS) (p : String) :
    ((env.pypdf2 || env.pipFixesPdf) = true →
      ∃ r, ∀ extra, extract_from_pdf env fs p (extra + 2) = .ret r) ∧
    ((env.pythonDocx || env.pipFixesDocx) = true →
      ∃ r, ∀ extra, extract_from_docx env fs p (extra + 2) = .ret r) := by
  constructor
  · intro h
    refine ⟨pdfRead fs p, fun extra => ?_⟩
    show extract_from_pdf env fs p (extra + 1 + 1) = _
    rw [extract_from_pdf]
    cases hp : env.pypdf2 with
    | true => rw [if_pos rfl]
    | false =>
      rw [if_neg (by simp)]
      rw [hp] at h
      simp only [Bool.false_or] at h
      have hfix : (envAfterPipPdf env).pypdf2 = true := by
        show (env.pypdf2 || env.pipFixesPdf) = true
        rw [hp, h]
        rfl
      rw [extract_from_pdf, if_pos hfix]
  · intro h
    refine ⟨docxRead fs p, fun extra => ?_⟩
    show extract_from_docx env fs p (extra + 1 + 1) = _
    rw [extract_from_docx]
    cases hp : env.pythonDocx with
    | true => rw [if_pos rfl]
    | false =>
      rw [if_neg (by simp)]
      rw [hp] at h
      simp only [Bool.false_or] at h
      have hfix : (envAfterPipDocx env).pythonDocx = true := by
        show (env.pythonDocx || env.pipFixesDocx) = true
        rw [hp, h]
        rfl
      rw [extract_from_docx, if_pos hfix]

/-- An environment in which the libraries are initially missing but the pip
install attempt makes them importable. -/
def envInstallWorks : Env :=
  { envDemo with pypdf2 := false, pythonDocx := false }

/-- C4 witness: with an install attempt that works, both extraction
functions return within two recursion steps. -/
theorem C4_extract_termination_witness :
    (envInstallWorks.pypdf2 || envInstallWorks.pipFixesPdf) = true ∧
    (envInstallWorks.pythonDocx || envInstallWorks.pipFixesDocx) = true ∧
    (∃ r, ∀ extra, extract_from_pdf envInstallWorks fsEmpty "paper.pdf" (extra + 2) = .ret r) ∧
    (∃ r, ∀ extra, extract_from_docx envInstallWorks fsEmpty "paper.docx" (extra + 2) = .ret r) :=
  ⟨rfl, rfl,
   (C4_extract_termination envInstallWorks fsEmpty "paper.pdf").1 rfl,
   (C4_extract_termination envInstallWorks fsEmpty "paper.docx").2 rfl⟩

/-! ## C5: optional CLI arguments -/

/-- C5 counterexample: invoking `style_transfer.py` with the two file-path
arguments but without the style argument does not proceed — the
`len(sys.argv) != 4` check prints the usage message and exits 1. -/
theorem C5_counterexample :
    style_transfer_main fsEmpty ["style_transfer.py", "in.jpg", "out.jpg"] = .usage := rfl

/-- C5 (amended): `topic_analyzer` and `openai_analyzer` proceed past the
argument check when the optional predefined-topics argument is omitted, but
`style_transfer` requires the style argument: with only the two file paths
it exits with the usage error, and only with all three arguments does it
proceed. -/
theorem C5_optional_args :
    (∀ env fs n t o, topic_analyzer_main env fs [n, t, o] ≠ .usage) ∧
    (∀ env fs n t o, openai_analyzer_main env fs [n, t, o] ≠ .usage) ∧
    (∀ fs n i o, style_transfer_main fs [n, i, o] = .usage) ∧
    (∀ fs n i o s, style_transfer_main fs [n, i, o, s] ≠ .usage) := by
  refine ⟨fun env fs n t o => ?_, fun env fs n t o => ?_, fun fs n i o => rfl,
    fun fs n i o s => ?_⟩
  · simp only [topic_analyzer_main]
    intro h
    exact absurd h (by simp)
  · simp only [openai_analyzer_main]
    intro h
    exact absurd h (by simp)
  · simp only [style_transfer_main]
    split <;> intro h
    · simp at h
    · split at h <;> simp at h


/-! ## C3: exit codes -/

/-- C3: every script exits 0 on success and 1 on failure, and the listed
failure cases exit 1: `text_extractor` for a nonexistent input path or an
unsupported extension, `topic_analyzer` for an unreadable or empty text
file, and `style_transfer` for a missing input file or a processing
exception (here: an unopenable input).  Diagnostic prints are side effects
outside the model. -/
theorem C3_exit_codes :
    (∀ env fs name i o fuel, fs i = none →
      text_extractor_main env fs [name, i, o] fuel = .exit 1 fs) ∧
    (∀ env fs name i o fuel f, fs i = some f →
      strLower (pathSuffix i) ∉ ([".pdf", ".docx", ".txt", ".text"] : List String) →
      text_extractor_main env fs [name, i, o] fuel = .exit 1 fs) ∧
    (∀ env fs name i o fuel fs', process_document env fs i o fuel = .ret true fs' →
      text_extractor_main env fs [name, i, o] fuel = .exit 0 fs') ∧
    (∀ env fs name t o rest, fs t = none →
      topic_analyzer_main env fs (name :: t :: o :: rest) = .exit 1 fs) ∧
    (∀ env fs name t o rest text, fs t = some (.text text) → pyStrip text = "" →
      topic_analyzer_main env fs (name :: t :: o :: rest) = .exit 1 fs) ∧
    (∀ env fs name t o rest fs', analyze_paper env fs t o rest.head? = (true, fs') →
      topic_analyzer_main env fs (name :: t :: o :: rest) = .exit 0 fs') ∧
    (∀ fs name i o s, fs i = none →
      style_transfer_main fs [name, i, o, s] = .exit 1 fs) ∧
    (∀ fs name i o s f, fs i = some f → (∀ img, f ≠ .image img) →
      style_transfer_main fs [name, i, o, s] = .exit 1 fs) ∧
    (∀ fs name i o s fs', process_image fs i o s = .finished fs' →
      style_transfer_main fs [name, i, o, s] = .exit 0 fs') ∧
    (∀ env fs name t o rest b fs', analyze_paper_openai env fs t o rest.head? = (b, fs') →
      openai_analyzer_main env fs (name :: t :: o :: rest) = .exit (if b then 0 else 1) fs') := by
  refine ⟨?_, ?_, ?_, ?_, ?_, ?_, ?_, ?_, ?_, ?_⟩
  · intro env fs name i o fuel h
    simp [text_extractor_main, process_document, h]
  · intro env fs name i o fuel f hf hext
    simp only [List.mem_cons, List.not_mem_nil, or_false, not_or] at hext
    obtain ⟨h1, h2, h3, h4⟩ := hext
    simp [text_extractor_main, process_document, hf, h1, h2, h3, h4]
  · intro env fs name i o fuel fs' h
    simp [text_extractor_main, h]
  · intro env fs name t o rest h
    cases hins : install_dependencies_ok env <;>
      simp [topic_analyzer_main, analyze_paper, h, hins]
  · intro env fs name t o rest text h hempty
    cases hins : install_dependencies_ok env <;>
      simp [topic_analyzer_main, analyze_paper, h, hins, hempty]
  · intro env fs name t o rest fs' h
    simp [topic_analyzer_main, h]
  · intro fs name i o s h
    simp [style_transfer_main, h]
  · intro fs name i o s f hf hni
    cases f with
    | image img => exact absurd rfl (hni img)
    | text s' => simp [style_transfer_main, process_image, hf]
    | json j => simp [style_transfer_main, process_image, hf]
    | pdf p' => simp [style_transfer_main, process_image, hf]
    | docx p' => simp [style_transfer_main, process_image, hf]
    | jpeg im => simp [style_transfer_main, process_image, hf]
    | binary => simp [style_transfer_main, process_image, hf]
  · intro fs name i o s fs' h
    cases hfi : fs i with
    | none =>
      unfold process_image at h
      rw [hfi] at h
      simp at h
    | some v =>
      simp [style_transfer_main, hfi, h]
  · intro env fs name t o rest b fs' h
    simp [openai_analyzer_main, h]

/-- A file system with an unsupported input document. -/
def fsCsv : FS := fun p => if p = "in.csv" then some (.text "x") else none

/-- A file system with a whitespace-only text document. -/
def fsBlank : FS := fun p => if p = "blank.txt" then some (.text "   ") else none

/-- A file system with one small RGB image. -/
def fsImg : FS := fun p => if p = "img.png" then some (.image (.file 0 "RGB" 100 100)) else none

/-- The analysis JSON of the demonstration topic-analyzer run. -/
def fsTopicOut : FS :=
  fsWrite fsDemo "out.json" (.json (localAnalysisJson envDemo demoText "in.txt" []))

/-- C3 witness: concrete runs hitting each listed exit-code case. -/
theorem C3_exit_codes_witness :
    text_extractor_main envDemo fsEmpty ["n", "in.txt", "out.txt"] 1 = .exit 1 fsEmpty ∧
    text_extractor_main envDemo fsCsv ["n", "in.csv", "out.txt"] 1 = .exit 1 fsCsv ∧
    text_extractor_main envDemo fsDemo ["n", "in.txt", "out.txt"] 1 = .exit 0 fsDemoOut ∧
    topic_analyzer_main envDemo fsEmpty ["n", "in.txt", "out.json"] = .exit 1 fsEmpty ∧
    topic_analyzer_main envDemo fsBlank ["n", "blank.txt", "out.json"] = .exit 1 fsBlank ∧
    topic_analyzer_main envDemo fsDemo ["n", "in.txt", "out.json"] = .exit 0 fsTopicOut ∧
    style_transfer_main fsEmpty ["n", "img.png", "out.jpg", "monet"] = .exit 1 fsEmpty ∧
    style_transfer_main fsBlank ["n", "blank.txt", "out.jpg", "monet"] = .exit 1 fsBlank ∧
    style_transfer_main fsImg ["n", "img.png", "out.jpg", "monet"] =
      .exit 0 (fsWrite fsImg "out.jpg" (.jpeg (.styled "monet" (.file 0 "RGB" 100 100)))) ∧
    openai_analyzer_main envDemo fsDemo ["n", "in.txt", "out.json"] = .exit 0 fsTopicOut := by
  obtain ⟨p1, p2, p3, p4, p5, p6, p7, p8, p9, p10⟩ := C3_exit_codes
  refine ⟨?_, ?_, ?_, ?_, ?_, ?_, ?_, ?_, ?_, ?_⟩
  · exact p1 envDemo fsEmpty "n" "in.txt" "out.txt" 1 rfl
  · exact p2 envDemo fsCsv "n" "in.csv" "out.txt" 1 (.text "x") rfl (by decide)
  · exact p3 envDemo fsDemo "n" "in.txt" "out.txt" 1 fsDemoOut rfl
  · exact p4 envDemo fsEmpty "n" "in.txt" "out.json" [] rfl
  · exact p5 envDemo fsBlank "n" "blank.txt" "out.json" [] "   " rfl rfl
  · exact p6 envDemo fsDemo "n" "in.txt" "out.json" [] fsTopicOut rfl
  · exact p7 fsEmpty "n" "img.png" "out.jpg" "monet" rfl
  · exact p8 fsBlank "n" "blank.txt" "out.jpg" "monet" (.text "   ") rfl
      (fun img h => nomatch h)
  · exact p9 fsImg "n" "img.png" "out.jpg" "monet" _ rfl
  · exact p10 envDemo fsDemo "n" "in.txt" "out.json" [] true fsTopicOut rfl

/-! ## Success-shape helper lemmas for the analyzers -/

/-- Every successful `analyze_paper` run wrote exactly the local analysis
JSON to the output path. -/
theorem analyze_paper_ret_true (env : Env) (fs : FS) (t o : String) (p : Option String)
    (fs' : FS) (h : analyze_paper env fs t o p = (true, fs')) :
    ∃ text, fs t = some (.text text) ∧
      fs' = fsWrite fs o (.json (localAnalysisJson env text t (loadPredef fs p))) := by
  unfold analyze_paper at h
  split at h
  · split at h
    · rename_i text heq
      split at h
      · simp at h
      · refine ⟨text, heq, ?_⟩
        injection h with _ h2
        exact h2.symm
    · simp at h
  · simp at h

/-- Every successful `analyze_paper_openai` run either wrote the OpenAI
analysis JSON itself or succeeded through the local fallback. -/
theorem analyze_paper_openai_ret_true (env : Env) (fs : FS) (t o : String)
    (p : Option String) (fs' : FS) (h : analyze_paper_openai env fs t o p = (true, fs')) :
    (∃ res, fs' = fsWrite fs o (.json (openaiAnalysisJson env res t (loadPredef fs p)))) ∨
    analyze_paper env fs t o p = (true, fs') := by
  unfold analyze_paper_openai at h
  split at h
  · exact Or.inr h
  · split at h
    · split at h
      · simp at h
      · split at h
        · exact Or.inr h
        · rename_i res heq
          refine Or.inl ⟨res, ?_⟩
          injection h with _ h2
          exact h2.symm
    · exact Or.inr h

/-- The keys of the local analysis JSON. -/
theorem localAnalysisJson_keys (env : Env) (text t : String) (predef : List PredefTopic) :
    (localAnalysisJson env text t predef).keys =
      ["summary", "extractedTopics", "suggestedTopics", "analysisDate"] := rfl

/-- The keys of the OpenAI analysis JSON. -/
theorem openaiAnalysisJson_keys (env : Env) (res : OAResult) (t : String)
    (predef : List PredefTopic) :
    (openaiAnalysisJson env res t predef).keys =
      ["summary", "extractedTopics", "suggestedTopics", "suggestedAreas",
       "analysisDate", "analyzedWith"] := rfl

/-- Every normally finishing `process_image` run wrote a JPEG to the output
path. -/
theorem process_image_finished (fs : FS) (i o s : String) (fs' : FS)
    (h : process_image fs i o s = .finished fs') :
    ∃ img, fs' = fsWrite fs o (.jpeg img) := by
  unfold process_image at h
  split at h
  · injection h with h1
    exact ⟨_, h1.symm⟩
  · simp at h

/-! ## C1: fallback of the OpenAI analyzer -/

/-- C1: whenever the OpenAI client cannot be set up (`OPENAI_API_KEY`
unset) or the OpenAI analysis call produces no result (it catches its own
exceptions and returns `None`), `analyze_paper_openai` returns exactly the
result of the local `analyze_paper` on the same text path, output path and
predefined-topics path. -/
theorem C1_openai_fallback (env : Env) (fs : FS) (t o : String) (p : Option String) :
    (env.apiKey = none → analyze_paper_openai env fs t o p = analyze_paper env fs t o p) ∧
    (∀ text, fs t = some (.text text) → pyStrip text ≠ "" →
      env.openaiAnalyze (truncateForOpenai text) = none →
      analyze_paper_openai env fs t o p = analyze_paper env fs t o p) := by
  constructor
  · intro hk
    unfold analyze_paper_openai setup_openai
    rw [hk]
  · intro text hft hne hana
    unfold analyze_paper_openai
    cases hso : setup_openai env with
    | none => rfl
    | some u =>
      simp only [hft]
      rw [if_neg hne]
      simp only [analyze_with_openai, hana]

/-- An environment with an API key and a working client whose analysis
call yields no result. -/
def envOAFail : Env := { envDemo with apiKey := some "k" }

/-- C1 witness: with no API key, and separately with a client whose
analysis yields no result, the OpenAI analyzer returns the local
analyzer's result. -/
theorem C1_openai_fallback_witness :
    envDemo.apiKey = none ∧
    analyze_paper_openai envDemo fsDemo "in.txt" "out.json" none =
      analyze_paper envDemo fsDemo "in.txt" "out.json" none ∧
    fsDemo "in.txt" = some (.text demoText) ∧ pyStrip demoText ≠ "" ∧
    envOAFail.openaiAnalyze (truncateForOpenai demoText) = none ∧
    analyze_paper_openai envOAFail fsDemo "in.txt" "out.json" none =
      analyze_paper envOAFail fsDemo "in.txt" "out.json" none :=
  ⟨rfl,
   (C1_openai_fallback envDemo fsDemo "in.txt" "out.json" none).1 rfl,
   rfl, by decide, rfl,
   (C1_openai_fallback envOAFail fsDemo "in.txt" "out.json" none).2 demoText rfl (by decide) rfl⟩

/-! ## C2: documented top-level keys of the analysis JSON -/

/-- C2: whenever an analyzer reports success, the analysis JSON it wrote
contains all documented top-level keys (`summary`, `extractedTopics`,
`suggestedTopics`, `analysisDate`) — for the local analyzer these are
exactly its keys, with `suggestedTopics` present as a (possibly empty) list
even when no predefined-topics file was usable, and for the OpenAI analyzer
they are contained among its keys on its own success path and are exactly
the keys on the fallback path. -/
theorem C2_output_keys :
    (∀ env fs t o p fs', analyze_paper env fs t o p = (true, fs') →
      ∃ j, fs' o = some (.json j) ∧
        j.keys = ["summary", "extractedTopics", "suggestedTopics", "analysisDate"]) ∧
    (∀ env fs t o p fs', analyze_paper_openai env fs t o p = (true, fs') →
      ∃ j, fs' o = some (.json j) ∧
        ∀ k ∈ (["summary", "extractedTopics", "suggestedTopics", "analysisDate"] : List String),
          k ∈ j.keys) := by
  constructor
  · intro env fs t o p fs' h
    obtain ⟨text, -, hfs⟩ := analyze_paper_ret_true env fs t o p fs' h
    exact ⟨_, by rw [hfs]; exact fsWrite_same _ _ _,
      localAnalysisJson_keys env text t (loadPredef fs p)⟩
  · intro env fs t o p fs' h
    rcases analyze_paper_openai_ret_true env fs t o p fs' h with ⟨res, hfs⟩ | hloc
    · refine ⟨_, by rw [hfs]; exact fsWrite_same _ _ _, ?_⟩
      rw [openaiAnalysisJson_keys]
      decide
    · obtain ⟨text, -, hfs⟩ := analyze_paper_ret_true env fs t o p fs' hloc
      refine ⟨_, by rw [hfs]; exact fsWrite_same _ _ _, ?_⟩
      rw [localAnalysisJson_keys]
      decide

/-- An environment whose OpenAI analysis call succeeds. -/
def envOAgood : Env :=
  { envDemo with apiKey := some "k",
                 openaiAnalyze := fun _ => some ⟨some "os", some [], some []⟩ }

/-- Final file system of the successful OpenAI-path demonstration run. -/
def fsOAOut : FS :=
  fsWrite fsDemo "out.json"
    (.json (openaiAnalysisJson envOAgood ⟨some "os", some [], some []⟩ "in.txt" []))

/-- C2 witness: a successful local run and a successful OpenAI run, each
carrying the documented keys. -/
theorem C2_output_keys_witness :
    (∃ j, fsTopicOut "out.json" = some (.json j) ∧
      j.keys = ["summary", "extractedTopics", "suggestedTopics", "analysisDate"]) ∧
    (∃ j, fsOAOut "out.json" = some (.json j) ∧
      ∀ k ∈ (["summary", "extractedTopics", "suggestedTopics", "analysisDate"] : List String),
        k ∈ j.keys) :=
  ⟨C2_output_keys.1 envDemo fsDemo "in.txt" "out.json" none fsTopicOut rfl,
   C2_output_keys.2 envOAgood fsDemo "in.txt" "out.json" none fsOAOut rfl⟩

/-! ## C6: well-formed output artifacts on success -/

/-- C6: whenever a script reports success, the artifact it wrote is
well-formed — the extractor's metadata file and both analyzers' analysis
files are JSON serializations of dictionaries, and the image written by
`style_transfer` is a JPEG. -/
theorem C6_wellformed_outputs :
    (∀ env fs i o fuel fs', process_document env fs i o fuel = .ret true fs' →
      ∃ fields, fs' (metadataPath o) = some (.json (.obj fields))) ∧
    (∀ env fs t o p fs', analyze_paper env fs t o p = (true, fs') →
      ∃ fields, fs' o = some (.json (.obj fields))) ∧
    (∀ env fs t o p fs', analyze_paper_openai env fs t o p = (true, fs') →
      ∃ fields, fs' o = some (.json (.obj fields))) ∧
    (∀ fs i o s fs', process_image fs i o s = .finished fs' →
      ∃ img, fs' o = some (.jpeg img)) := by
  refine ⟨?_, ?_, ?_, ?_⟩
  · intro env fs i o fuel fs' h
    obtain ⟨cleaned, hfs⟩ := process_document_ret_true env fs i o fuel fs' h
    exact ⟨_, by rw [hfs]; exact fsWrite_same _ _ _⟩
  · intro env fs t o p fs' h
    obtain ⟨text, -, hfs⟩ := analyze_paper_ret_true env fs t o p fs' h
    exact ⟨_, by rw [hfs]; exact fsWrite_same _ _ _⟩
  · intro env fs t o p fs' h
    rcases analyze_paper_openai_ret_true env fs t o p fs' h with ⟨res, hfs⟩ | hloc
    · exact ⟨_, by rw [hfs]; exact fsWrite_same _ _ _⟩
    · obtain ⟨text, -, hfs⟩ := analyze_paper_ret_true env fs t o p fs' hloc
      exact ⟨_, by rw [hfs]; exact fsWrite_same _ _ _⟩
  · intro fs i o s fs' h
    obtain ⟨img, hfs⟩ := process_image_finished fs i o s fs' h
    exact ⟨img, by rw [hfs]; exact fsWrite_same _ _ _⟩

/-- C6 witness: the demonstration runs leave a JSON object at the metadata
and analysis paths and a JPEG at the image output path. -/
theorem C6_wellformed_outputs_witness :
    (∃ fields, fsDemoOut (metadataPath "out.txt") = some (.json (.obj fields))) ∧
    (∃ fields, fsTopicOut "out.json" = some (.json (.obj fields))) ∧
    (∃ fields, fsOAOut "out.json" = some (.json (.obj fields))) ∧
    (∃ img, (fsWrite fsImg "out.jpg" (.jpeg (.styled "monet" (.file 0 "RGB" 100 100)))) "out.jpg" =
      some (.jpeg img)) :=
  ⟨C6_wellformed_outputs.1 envDemo fsDemo "in.txt" "out.txt" 1 fsDemoOut rfl,
   C6_wellformed_outputs.2.1 envDemo fsDemo "in.txt" "out.json" none fsTopicOut rfl,
   C6_wellformed_outputs.2.2.1 envOAgood fsDemo "in.txt" "out.json" none fsOAOut rfl,
   C6_wellformed_outputs.2.2.2 fsImg "img.png" "out.jpg" "monet" _ rfl⟩

/-! ## C9: unrecognized style names -/

/-- C9: for every style argument whose lowered form is not one of the seven
dictionary keys, `process_image` reports no error — it behaves exactly as
if the style were `vangogh`, and with an openable input image it finishes
normally, writing the styled output. -/
theorem C9_unknown_style_vangogh (fs : FS) (i o s : String)
    (h : strLower s ∉
      (["vangogh", "picasso", "monet", "abstract", "dali", "warhol", "kandinsky"] : List String)) :
    process_image fs i o s = process_image fs i o "vangogh" ∧
    ∀ img, fs i = some (.image img) → ∃ fs', process_image fs i o s = .finished fs' := by
  have hsf : style_functions (strLower s) = none := by
    simp only [List.mem_cons, List.not_mem_nil, or_false, not_or] at h
    obtain ⟨h1, h2, h3, h4, h5, h6, h7⟩ := h
    simp [style_functions, h1, h2, h3, h4, h5, h6, h7]
  have hres : ∀ img, styledResult s img = styledResult "vangogh" img := by
    intro img
    rw [styledResult, hsf]
    rfl
  constructor
  · unfold process_image
    cases hfi : fs i with
    | none => rfl
    | some f =>
      cases f with
      | image img =>
        show StOut.finished
            (fsWrite fs o (.jpeg (styledResult s (resizeIfBig (convertIfNeeded img))))) = _
        rw [hres]
      | text s' => rfl
      | json j => rfl
      | pdf p' => rfl
      | docx p' => rfl
      | jpeg im => rfl
      | binary => rfl
  · intro img hfi
    exact ⟨fsWrite fs o (.jpeg (styledResult s (resizeIfBig (convertIfNeeded img)))),
      by simp [process_image, hfi]⟩

/-- C9 witness: the unrecognized style `frida` behaves like `vangogh` and
finishes normally on the demonstration image. -/
theorem C9_unknown_style_vangogh_witness :
    strLower "frida" ∉
      (["vangogh", "picasso", "monet", "abstract", "dali", "warhol", "kandinsky"] : List String) ∧
    process_image fsImg "img.png" "out.jpg" "frida" =
      process_image fsImg "img.png" "out.jpg" "vangogh" ∧
    ∃ fs', process_image fsImg "img.png" "out.jpg" "frida" = .finished fs' :=
  ⟨by decide,
   (C9_unknown_style_vangogh fsImg "img.png" "out.jpg" "frida" (by decide)).1,
   (C9_unknown_style_vangogh fsImg "img.png" "out.jpg" "frida" (by decide)).2
     (.file 0 "RGB" 100 100) rfl⟩

/-- C5 witness: concrete invocations — both analyzers proceed with two
file-path arguments, while `style_transfer` with two file-path arguments
hits the usage error and proceeds only once the style argument is added. -/
theorem C5_optional_args_witness :
    topic_analyzer_main envDemo fsEmpty ["topic_analyzer.py", "t.txt", "o.json"] ≠ .usage ∧
    openai_analyzer_main envDemo fsEmpty ["openai_analyzer.py", "t.txt", "o.json"] ≠ .usage ∧
    style_transfer_main fsEmpty ["style_transfer.py", "i.jpg", "o.jpg"] = .usage ∧
    style_transfer_main fsEmpty ["style_transfer.py", "i.jpg", "o.jpg", "monet"] ≠ .usage :=
  ⟨C5_optional_args.1 envDemo fsEmpty "topic_analyzer.py" "t.txt" "o.json",
   C5_optional_args.2.1 envDemo fsEmpty "openai_analyzer.py" "t.txt" "o.json",
   C5_optional_args.2.2.1 fsEmpty "style_transfer.py" "i.jpg" "o.jpg",
   C5_optional_args.2.2.2 fsEmpty "style_transfer.py" "i.jpg" "o.jpg" "monet"⟩

end PaperAnalyzer
